import Mathlib

/-!
Shallow embedding of the `SIEBanxico` client class
(`src/sie_banxico/sie_banxico.py`), a thin wrapper around the Banco de
México SIE HTTP API, together with theorems checking the natural-language
specification against it.

Modelling conventions:
* Dynamically-typed Python arguments are values of the inductive `PyVal`.
* A Python exception is an `SIEError`; a method that can raise returns the
  post-call object state paired with `Except SIEError α`, because in Python
  mutations performed before a `raise` persist on the object.
* `requests.get` is modelled by a caller-supplied transport function
  `HttpRequest → HttpResponse`; `response.json()` is the already-parsed
  `json` field of the response.  A fetch method returns a `FetchOutcome`
  recording the post-call state, the request it issued (`none` when it
  raised before any network call) and the result.
-/

/-- A dynamically-typed Python value, as far as the client inspects one. -/
inductive PyVal where
  | none
  | str (s : String)
  | int (n : Int)
  | list (l : List PyVal)

/-- Models Python `type(v) == str` / `isinstance(v, str)`. -/
def PyVal.isStr : PyVal → Bool
  | .str _ => true
  | _ => false

/-- Models Python `isinstance(v, list)`. -/
def PyVal.isList : PyVal → Bool
  | .list _ => true
  | _ => false

/-- Models Python `v is None` (`v != None` is its negation). -/
def PyVal.isNone : PyVal → Bool
  | .none => true
  | _ => false

/-- The text Python `str(v)` interpolates into an f-string.  Only the
`str` case is ever reached by the client (both f-string error messages sit
behind a `type(...) != str` guard), so the other cases are irrelevant. -/
def PyVal.pyStr : PyVal → String
  | .str s => s
  | .none => "None"
  | .int n => Int.repr n
  | .list _ => "[...]"

/-- The exceptions the client raises: Python `TypeError`, `ValueError` and
`requests.RequestException`, each carrying its message. -/
inductive SIEError where
  | typeError (msg : String)
  | valueError (msg : String)
  | requestError (msg : String)
deriving DecidableEq

/-- Is this error a Python `ValueError`? -/
def SIEError.isValueError : SIEError → Bool
  | .valueError _ => true
  | _ => false

/-- The query parameters dict `self.__params`.  Only the keys `locale` and
`incremento` are ever written; an `Option` field models key presence. -/
structure Params where
  locale : Option PyVal
  incremento : Option PyVal

/-- The state of a `SIEBanxico` object: `self.token`, `self.series`,
`self.__url`, `self.__headers` and `self.__params`. -/
structure SIEBanxico where
  token : String
  series : String
  url : String
  headers : List (String × String)
  params : Params

/-- An HTTP GET request as handed to `requests.get(url, headers, params)`. -/
structure HttpRequest where
  url : String
  headers : List (String × String)
  params : Params

/-- An HTTP response: its status code and its parsed JSON body
(`response.json()`), the latter kept abstract as a `PyVal`. -/
structure HttpResponse where
  status_code : Nat
  json : PyVal

/-- Result of one fetch-method call: the object state after the call
(mutations persist even when the call raises), the request that went out
on the wire (`none` when the method raised before any network call), and
the returned JSON body or the raised exception. -/
structure FetchOutcome where
  state : SIEBanxico
  request : Option HttpRequest
  result : Except SIEError PyVal

namespace SIEBanxico

/-- `self.__url`, assigned in `__init__`. -/
def baseUrl : String := "https://www.banxico.org.mx/SieAPIRest/service/v1/series/"

/-- Checks that every element of a Python list is a string, returning the
underlying strings; `none` when some element is not a string. -/
def allStrings : List PyVal → Option (List String)
  | [] => some []
  | PyVal.str s :: rest => (allStrings rest).map (fun t => s :: t)
  | _ => Option.none

/-- Models Python `','.join(l)`: joins the strings with `,`, raising
`TypeError` when some element is not a string (message abridged from
CPython's `sequence item i: expected str instance`). -/
def joinComma (l : List PyVal) : Except SIEError String :=
  match allStrings l with
  | some ss => Except.ok (String.intercalate "," ss)
  | Option.none => Except.error (SIEError.typeError "sequence item: expected str instance")

/-- The token-argument validation shared by `__init__` and `set_token`:
`type(token) != str` raises `TypeError`, otherwise the string is kept. -/
def token_value (token : PyVal) : Except SIEError String :=
  match token with
  | PyVal.str s => Except.ok s
  | _ => Except.error (SIEError.typeError "\"token\" must be a string.")

/-- The `id_series` validation of `set_id_series` (shared with
`__init__`): a list is comma-joined, a bare string is kept as-is, anything
else raises `TypeError`. -/
def series_value (id_series : PyVal) : Except SIEError String :=
  match id_series with
  | PyVal.list l => joinComma l
  | PyVal.str s => Except.ok s
  | _ => Except.error (SIEError.typeError "\"id_series\" must be a list with strings or a single string.")

/-- The `__set_language` validation: a non-string language raises
`TypeError`; a string other than `en`/`es` raises `ValueError`; otherwise
the language string is stored (by `__init__`) under params key `locale`. -/
def language_value (language : PyVal) : Except SIEError String :=
  match language with
  | PyVal.str l =>
      if l = "en" ∨ l = "es" then Except.ok l
      else Except.error (SIEError.valueError
        ("\"" ++ l ++ "\" is not defined.\nTry \"en\" for english or \"es\" for spanish."))
  | _ => Except.error (SIEError.typeError "\"language\" must be a string.")

/-- `SIEBanxico.__init__(token, id_series, language)`: validates the token
(`set_token`), the series selector (`set_id_series`) and the language
(`__set_language`), then builds the base URL, the `Bmx-Token` header from
the token, and the params dict holding only `locale`. -/
def init (token : PyVal) (id_series : PyVal) (language : PyVal) :
    Except SIEError SIEBanxico :=
  match token_value token with
  | Except.error e => Except.error e
  | Except.ok tok =>
    match series_value id_series with
    | Except.error e => Except.error e
    | Except.ok ser =>
      match language_value language with
      | Except.error e => Except.error e
      | Except.ok lang =>
        Except.ok
          { token := tok
            series := ser
            url := baseUrl
            headers := [("Bmx-Token", tok)]
            params := { locale := some (PyVal.str lang), incremento := Option.none } }

/-- `set_token`: validates the argument and replaces `self.token`.  Note:
it does not touch `self.__headers`, exactly as in the source. -/
def set_token (st : SIEBanxico) (token : PyVal) : SIEBanxico × Except SIEError Unit :=
  match token_value token with
  | Except.ok s => ({ st with token := s }, Except.ok ())
  | Except.error e => (st, Except.error e)

/-- `set_id_series`: validates the argument and replaces `self.series`. -/
def set_id_series (st : SIEBanxico) (id_series : PyVal) : SIEBanxico × Except SIEError Unit :=
  match series_value id_series with
  | Except.ok s => ({ st with series := s }, Except.ok ())
  | Except.error e => (st, Except.error e)

/-- `append_id_series`: requires a list (a bare string raises `TypeError`),
then executes `self.series += ',' + ','.join(id_series)`. -/
def append_id_series (st : SIEBanxico) (id_series : PyVal) : SIEBanxico × Except SIEError Unit :=
  match id_series with
  | PyVal.list l =>
      match joinComma l with
      | Except.ok j => ({ st with series := st.series ++ ("," ++ j) }, Except.ok ())
      | Except.error e => (st, Except.error e)
  | _ => (st, Except.error (SIEError.typeError "\"id_series\" must be a list with strings."))

/-- The three string literals accepted for `pct_change` beside `None`. -/
def pctStrings : List String := ["PorcObsAnt", "PorcAnual", "PorcAcumAnual"]

/-- Models the Python membership test
`pct_change in [None, 'PorcObsAnt', 'PorcAnual', 'PorcAcumAnual']`. -/
def pctMember (p : PyVal) : Bool :=
  match p with
  | PyVal.none => true
  | PyVal.str s => pctStrings.contains s
  | _ => false

/-- The `ValueError` message of `__set_pct_change` (an f-string over the
rejected value). -/
def pctValueMsg (p : PyVal) : String :=
  "\"" ++ p.pyStr ++ "\" is not defined.\nTry None for levels, \"PorcObsAnt\" for change rate compared to the previous observation, \"PorcAnual\" for anual change rate, \"PorcAcumAnual\" for annual acummulated change rate."

/-- `__set_pct_change`: a non-`None` non-string raises `TypeError`; a value
outside the allowed four raises `ValueError`; otherwise the value (possibly
`None`) is written into the params dict under key `incremento`. -/
def set_pct_change (st : SIEBanxico) (pct_change : PyVal) : SIEBanxico × Except SIEError Unit :=
  if pct_change.isNone = false ∧ pct_change.isStr = false then
    (st, Except.error (SIEError.typeError "\"pct_change\" must be None or a string."))
  else if pctMember pct_change = false then
    (st, Except.error (SIEError.valueError (pctValueMsg pct_change)))
  else
    ({ st with params := { st.params with incremento := some pct_change } }, Except.ok ())

/-- The `RequestException` message of `get_metadata`, `get_lastdata` and
`get_timeseries` (an f-string over the status code). -/
def requestMsg (code : Nat) : String :=
  "Something go wrong with the request. Review the token or series id.\nStatus code: " ++ Nat.repr code

/-- The `RequestException` message of `get_timeseries_range`. -/
def requestRangeMsg (code : Nat) : String :=
  "Something go wrong with the request. Review the token, series id or date format.\nStatus code: " ++ Nat.repr code

/-- `get_metadata`: sets `incremento` to `None`, GETs `{url}{series}` with
the stored headers and params, raises `RequestException` on a status code
other than 200 (message carrying the code), else returns the JSON body. -/
def get_metadata (st : SIEBanxico) (tr : HttpRequest → HttpResponse) : FetchOutcome :=
  match set_pct_change st PyVal.none with
  | (st1, Except.error e) => { state := st1, request := Option.none, result := Except.error e }
  | (st1, Except.ok _) =>
    let req : HttpRequest := { url := st1.url ++ st1.series, headers := st1.headers, params := st1.params }
    let resp := tr req
    if resp.status_code ≠ 200 then
      { state := st1, request := some req
        result := Except.error (SIEError.requestError (requestMsg resp.status_code)) }
    else
      { state := st1, request := some req, result := Except.ok resp.json }

/-- `get_lastdata`: validates/stores `pct_change`, GETs
`{url}{series}/datos/oportuno`, same status handling as `get_metadata`. -/
def get_lastdata (st : SIEBanxico) (pct_change : PyVal) (tr : HttpRequest → HttpResponse) :
    FetchOutcome :=
  match set_pct_change st pct_change with
  | (st1, Except.error e) => { state := st1, request := Option.none, result := Except.error e }
  | (st1, Except.ok _) =>
    let req : HttpRequest := { url := st1.url ++ st1.series ++ "/datos/oportuno", headers := st1.headers, params := st1.params }
    let resp := tr req
    if resp.status_code ≠ 200 then
      { state := st1, request := some req
        result := Except.error (SIEError.requestError (requestMsg resp.status_code)) }
    else
      { state := st1, request := some req, result := Except.ok resp.json }

/-- `get_timeseries`: validates/stores `pct_change`, GETs
`{url}{series}/datos`, same status handling as `get_metadata`. -/
def get_timeseries (st : SIEBanxico) (pct_change : PyVal) (tr : HttpRequest → HttpResponse) :
    FetchOutcome :=
  match set_pct_change st pct_change with
  | (st1, Except.error e) => { state := st1, request := Option.none, result := Except.error e }
  | (st1, Except.ok _) =>
    let req : HttpRequest := { url := st1.url ++ st1.series ++ "/datos", headers := st1.headers, params := st1.params }
    let resp := tr req
    if resp.status_code ≠ 200 then
      { state := st1, request := some req
        result := Except.error (SIEError.requestError (requestMsg resp.status_code)) }
    else
      { state := st1, request := some req, result := Except.ok resp.json }

/-- `get_timeseries_range`: validates/stores `pct_change` FIRST, then
checks both dates are strings (`TypeError` otherwise), GETs
`{url}{series}/datos/{init_date}/{end_date}`; its error message also
mentions the date format. -/
def get_timeseries_range (st : SIEBanxico) (init_date : PyVal) (end_date : PyVal)
    (pct_change : PyVal) (tr : HttpRequest → HttpResponse) : FetchOutcome :=
  match set_pct_change st pct_change with
  | (st1, Except.error e) => { state := st1, request := Option.none, result := Except.error e }
  | (st1, Except.ok _) =>
    if init_date.isStr = false ∨ end_date.isStr = false then
      { state := st1, request := Option.none
        result := Except.error (SIEError.typeError
          "\"init_date\" and \"end_date\" must be a string in the format yyyy-mm-dd") }
    else
      let req : HttpRequest :=
        { url := st1.url ++ st1.series ++ "/datos/" ++ init_date.pyStr ++ "/" ++ end_date.pyStr
          headers := st1.headers, params := st1.params }
      let resp := tr req
      if resp.status_code ≠ 200 then
        { state := st1, request := some req
          result := Except.error (SIEError.requestError (requestRangeMsg resp.status_code)) }
      else
        { state := st1, request := some req, result := Except.ok resp.json }

end SIEBanxico

/-- A transport that always answers 200 with an irrelevant body, for use in
concrete scenarios. -/
def transport200 : HttpRequest → HttpResponse :=
  fun _ => { status_code := 200, json := PyVal.none }

/-- A concrete, well-formed client state, as produced by
`SIEBanxico.init (str "tok") (list [str "SF1"]) (str "en")`. -/
def stEx : SIEBanxico :=
  { token := "tok"
    series := "SF1"
    url := SIEBanxico.baseUrl
    headers := [("Bmx-Token", "tok")]
    params := { locale := some (PyVal.str "en"), incremento := Option.none } }

/-- The documented params invariant: `locale` is present and is one of the
two supported locale codes; `incremento`, when present, holds `None` or
one of the three percentage-change literals. -/
def ParamsInv (p : Params) : Prop :=
  (p.locale = some (PyVal.str "en") ∨ p.locale = some (PyVal.str "es"))
  ∧ (p.incremento = Option.none ∨ p.incremento = some PyVal.none
     ∨ p.incremento = some (PyVal.str "PorcObsAnt")
     ∨ p.incremento = some (PyVal.str "PorcAnual")
     ∨ p.incremento = some (PyVal.str "PorcAcumAnual"))

example : SIEBanxico.init (PyVal.str "tok") (PyVal.list [PyVal.str "SF1"]) (PyVal.str "en")
    = Except.ok stEx := by rfl

/-- A valid `pct_change` value is written into `incremento` and the call
reports success. -/
theorem SIEBanxico.set_pct_change_ok (st : SIEBanxico) (p : PyVal)
    (hp : SIEBanxico.pctMember p = true) :
    SIEBanxico.set_pct_change st p
      = ({ st with params := { st.params with incremento := some p } }, Except.ok ()) := by
  cases p with
  | none => rfl
  | str s => simp [SIEBanxico.set_pct_change, PyVal.isNone, PyVal.isStr, hp]
  | int n => simp [SIEBanxico.pctMember] at hp
  | list l => simp [SIEBanxico.pctMember] at hp

/-- A string outside the allowed three raises the `ValueError` and leaves
the state unchanged. -/
theorem SIEBanxico.set_pct_change_valueError (st : SIEBanxico) (s : String)
    (hs : SIEBanxico.pctMember (PyVal.str s) = false) :
    SIEBanxico.set_pct_change st (PyVal.str s)
      = (st, Except.error (SIEError.valueError (SIEBanxico.pctValueMsg (PyVal.str s)))) := by
  simp [SIEBanxico.set_pct_change, PyVal.isNone, PyVal.isStr, hs]

/-- A non-`None` non-string raises the `TypeError` and leaves the state
unchanged. -/
theorem SIEBanxico.set_pct_change_typeError (st : SIEBanxico) (v : PyVal)
    (hv : v.isNone = false ∧ v.isStr = false) :
    SIEBanxico.set_pct_change st v
      = (st, Except.error (SIEError.typeError "\"pct_change\" must be None or a string.")) := by
  obtain ⟨h1, h2⟩ := hv
  simp [SIEBanxico.set_pct_change, h1, h2]

/-- Scanning a list of string values succeeds and returns exactly those
strings. -/
theorem SIEBanxico.allStrings_map_str (ids : List String) :
    SIEBanxico.allStrings (ids.map PyVal.str) = some ids := by
  induction ids with
  | nil => rfl
  | cons a t ih => simp [SIEBanxico.allStrings, ih]

/-- Scanning a list holding at least one non-string value fails. -/
theorem SIEBanxico.allStrings_eq_none (l : List PyVal)
    (h : ∃ x, x ∈ l ∧ x.isStr = false) :
    SIEBanxico.allStrings l = Option.none := by
  induction l with
  | nil =>
    rcases h with ⟨x, hx, _⟩
    exact absurd hx (List.not_mem_nil x)
  | cons a t ih =>
    rcases h with ⟨x, hx, hxs⟩
    rcases List.mem_cons.mp hx with he | hm
    · subst he
      cases x with
      | str s => simp [PyVal.isStr] at hxs
      | none => rfl
      | int n => rfl
      | list m => rfl
    · cases a with
      | str s =>
        have hn : SIEBanxico.allStrings t = Option.none := ih ⟨x, hm, hxs⟩
        simp [SIEBanxico.allStrings, hn]
      | none => rfl
      | int n => rfl
      | list m => rfl

/-- C1: the claim that every fetch request carries the CURRENTLY stored
token under `Bmx-Token` fails on the code: `__init__` freezes the headers
dict from the construction-time token and `set_token` never refreshes it,
so after `set_token("NEWTOKEN")` the stored token is `NEWTOKEN` yet
`get_metadata` still sends `OLDTOKEN` in the `Bmx-Token` header. -/
theorem C1_stale_token_after_set_token :
    ∃ st0 st1 : SIEBanxico,
      SIEBanxico.init (PyVal.str "OLDTOKEN") (PyVal.list [PyVal.str "SF1"]) (PyVal.str "en")
        = Except.ok st0
      ∧ SIEBanxico.set_token st0 (PyVal.str "NEWTOKEN") = (st1, Except.ok ())
      ∧ st1.token = "NEWTOKEN"
      ∧ (SIEBanxico.get_metadata st1 transport200).request
          = some { url := SIEBanxico.baseUrl ++ "SF1"
                   headers := [("Bmx-Token", "OLDTOKEN")]
                   params := { locale := some (PyVal.str "en"), incremento := some PyVal.none } }
      ∧ ("NEWTOKEN" : String) ≠ "OLDTOKEN" :=
  ⟨_, _, rfl, rfl, rfl, rfl, by decide⟩

/-- C5: `set_id_series` joins a list of strings with `,` in input order,
stores a single string as-is, and rejects any argument that is neither a
string nor a list with a `TypeError`, leaving the state (hence the stored
selector) unchanged. -/
theorem C5_set_id_series (st : SIEBanxico) (ids : List String) (s : String) (v : PyVal)
    (hv : v.isStr = false ∧ v.isList = false) :
    SIEBanxico.set_id_series st (PyVal.list (ids.map PyVal.str))
      = ({ st with series := String.intercalate "," ids }, Except.ok ())
  ∧ SIEBanxico.set_id_series st (PyVal.str s) = ({ st with series := s }, Except.ok ())
  ∧ SIEBanxico.set_id_series st v
      = (st, Except.error (SIEError.typeError
          "\"id_series\" must be a list with strings or a single string.")) := by
  obtain ⟨h1, h2⟩ := hv
  refine ⟨?_, rfl, ?_⟩
  · simp [SIEBanxico.set_id_series, SIEBanxico.series_value, SIEBanxico.joinComma,
      SIEBanxico.allStrings_map_str]
  · cases v with
    | str t => simp [PyVal.isStr] at h1
    | list m => simp [PyVal.isList] at h2
    | none => rfl
    | int n => rfl

/-- Witness for C5 at concrete inputs. -/
theorem C5_witness :
    SIEBanxico.set_id_series stEx (PyVal.list [PyVal.str "A", PyVal.str "B"])
      = ({ stEx with series := "A,B" }, Except.ok ())
  ∧ SIEBanxico.set_id_series stEx (PyVal.str "SP74665")
      = ({ stEx with series := "SP74665" }, Except.ok ())
  ∧ SIEBanxico.set_id_series stEx (PyVal.int 7)
      = (stEx, Except.error (SIEError.typeError
          "\"id_series\" must be a list with strings or a single string.")) := by
  obtain ⟨h1, h2, h3⟩ := C5_set_id_series stEx ["A", "B"] "SP74665" (PyVal.int 7) ⟨rfl, rfl⟩
  exact ⟨h1, h2, h3⟩

/-- C6: `append_id_series` rejects a bare string with a `TypeError` and,
on a list of strings, replaces the selector with the old selector,
a comma, and the ids joined with commas; in particular appending `["B"]`
after setting `["A"]` yields `"A,B"`. -/
theorem C6_append_id_series (st : SIEBanxico) (ids : List String) (s : String) :
    SIEBanxico.append_id_series st (PyVal.list (ids.map PyVal.str))
      = ({ st with series := st.series ++ ("," ++ String.intercalate "," ids) }, Except.ok ())
  ∧ SIEBanxico.append_id_series st (PyVal.str s)
      = (st, Except.error (SIEError.typeError "\"id_series\" must be a list with strings."))
  ∧ (SIEBanxico.append_id_series
        (SIEBanxico.set_id_series st (PyVal.list [PyVal.str "A"])).1
        (PyVal.list [PyVal.str "B"])).1.series = "A,B" := by
  refine ⟨?_, rfl, rfl⟩
  simp [SIEBanxico.append_id_series, SIEBanxico.joinComma, SIEBanxico.allStrings_map_str]

/-- C10: a list containing at least one non-string element makes both
`set_id_series` and `append_id_series` raise the `TypeError` coming from
the `,`-join itself, leaving the state (hence the stored selector)
unchanged. -/
theorem C10_join_type_error (st : SIEBanxico) (l : List PyVal)
    (h : ∃ x, x ∈ l ∧ x.isStr = false) :
    SIEBanxico.set_id_series st (PyVal.list l)
      = (st, Except.error (SIEError.typeError "sequence item: expected str instance"))
  ∧ SIEBanxico.append_id_series st (PyVal.list l)
      = (st, Except.error (SIEError.typeError "sequence item: expected str instance")) := by
  have hn := SIEBanxico.allStrings_eq_none l h
  constructor
  · simp [SIEBanxico.set_id_series, SIEBanxico.series_value, SIEBanxico.joinComma, hn]
  · simp [SIEBanxico.append_id_series, SIEBanxico.joinComma, hn]

/-- Witness for C10 at a concrete mixed list. -/
theorem C10_witness :
    SIEBanxico.set_id_series stEx (PyVal.list [PyVal.str "A", PyVal.int 2])
      = (stEx, Except.error (SIEError.typeError "sequence item: expected str instance"))
  ∧ SIEBanxico.append_id_series stEx (PyVal.list [PyVal.str "A", PyVal.int 2])
      = (stEx, Except.error (SIEError.typeError "sequence item: expected str instance")) :=
  C10_join_type_error stEx [PyVal.str "A", PyVal.int 2]
    ⟨PyVal.int 2, List.Mem.tail _ (List.Mem.head _), rfl⟩

/-- C2: counterexample — starting from a state whose `incremento` is
`"PorcAnual"` (left by a prior `get_timeseries` call), calling
`get_timeseries_range` with a non-string `init_date` and a valid
`pct_change = None` raises the date `TypeError`, yet `incremento` has
already been overwritten to `None`: the params mapping is NOT unchanged. -/
theorem C2_counterexample :
    (SIEBanxico.get_timeseries stEx (PyVal.str "PorcAnual") transport200).state.params.incremento
        = some (PyVal.str "PorcAnual")
  ∧ (SIEBanxico.get_timeseries_range
        (SIEBanxico.get_timeseries stEx (PyVal.str "PorcAnual") transport200).state
        (PyVal.int 2020) (PyVal.str "2020-12-31") PyVal.none transport200).result
      = Except.error (SIEError.typeError
          "\"init_date\" and \"end_date\" must be a string in the format yyyy-mm-dd")
  ∧ (SIEBanxico.get_timeseries_range
        (SIEBanxico.get_timeseries stEx (PyVal.str "PorcAnual") transport200).state
        (PyVal.int 2020) (PyVal.str "2020-12-31") PyVal.none transport200).state.params.incremento
      = some PyVal.none
  ∧ some PyVal.none ≠ some (PyVal.str "PorcAnual") :=
  ⟨rfl, rfl, rfl, by simp⟩

/-- C2 (amended): with a valid `pct_change` and a non-string date argument,
`get_timeseries_range` raises the date `TypeError` before any network
request (none is issued), but the params mapping does not stay unchanged:
`incremento` is first overwritten with the new `pct_change` value; the rest
of the client state (token, selector, headers, locale) is unchanged. -/
theorem C2_range_raises_before_network (st : SIEBanxico) (d1 d2 p : PyVal)
    (tr : HttpRequest → HttpResponse)
    (hp : SIEBanxico.pctMember p = true)
    (hd : d1.isStr = false ∨ d2.isStr = false) :
    (SIEBanxico.get_timeseries_range st d1 d2 p tr).request = Option.none
  ∧ (SIEBanxico.get_timeseries_range st d1 d2 p tr).result
      = Except.error (SIEError.typeError
          "\"init_date\" and \"end_date\" must be a string in the format yyyy-mm-dd")
  ∧ (SIEBanxico.get_timeseries_range st d1 d2 p tr).state
      = { st with params := { st.params with incremento := some p } } := by
  have hok := SIEBanxico.set_pct_change_ok st p hp
  refine ⟨?_, ?_, ?_⟩ <;>
    · simp only [SIEBanxico.get_timeseries_range, hok]
      rcases hd with h | h <;> simp [h]

/-- Witness for the amended C2 at a concrete input. -/
theorem C2_witness :
    (SIEBanxico.get_timeseries_range stEx (PyVal.int 2020) (PyVal.str "2020-12-31")
        PyVal.none transport200).request = Option.none
  ∧ (SIEBanxico.get_timeseries_range stEx (PyVal.int 2020) (PyVal.str "2020-12-31")
        PyVal.none transport200).result
      = Except.error (SIEError.typeError
          "\"init_date\" and \"end_date\" must be a string in the format yyyy-mm-dd")
  ∧ (SIEBanxico.get_timeseries_range stEx (PyVal.int 2020) (PyVal.str "2020-12-31")
        PyVal.none transport200).state
      = { stEx with params := { stEx.params with incremento := some PyVal.none } } :=
  C2_range_raises_before_network stEx (PyVal.int 2020) (PyVal.str "2020-12-31")
    PyVal.none transport200 rfl (Or.inl rfl)

/-- C3: for each of `get_lastdata`, `get_timeseries` and
`get_timeseries_range`: a `pct_change` that is `None` or one of the three
allowed strings is written (possibly as `None`) into params key
`incremento` before the request executes, overwriting any prior value and
riding on the issued request; any other string raises the `ValueError` and
any non-string non-`None` raises the `TypeError`, in both cases with no
request issued and the state (hence `incremento`) unchanged. -/
theorem C3_pct_change_validation (st : SIEBanxico) (p v : PyVal) (s d1 d2 : String)
    (tr : HttpRequest → HttpResponse)
    (hp : SIEBanxico.pctMember p = true)
    (hs : SIEBanxico.pctMember (PyVal.str s) = false)
    (hv : v.isNone = false ∧ v.isStr = false) :
    ((SIEBanxico.get_lastdata st p tr).state.params.incremento = some p
      ∧ Option.map (fun r => r.params.incremento) (SIEBanxico.get_lastdata st p tr).request
          = some (some p)
      ∧ (SIEBanxico.get_timeseries st p tr).state.params.incremento = some p
      ∧ Option.map (fun r => r.params.incremento) (SIEBanxico.get_timeseries st p tr).request
          = some (some p)
      ∧ (SIEBanxico.get_timeseries_range st (PyVal.str d1) (PyVal.str d2) p tr).state.params.incremento
          = some p
      ∧ Option.map (fun r => r.params.incremento)
          (SIEBanxico.get_timeseries_range st (PyVal.str d1) (PyVal.str d2) p tr).request
          = some (some p))
  ∧ (SIEBanxico.get_lastdata st (PyVal.str s) tr
        = { state := st, request := Option.none
            result := Except.error (SIEError.valueError (SIEBanxico.pctValueMsg (PyVal.str s))) }
      ∧ SIEBanxico.get_timeseries st (PyVal.str s) tr
        = { state := st, request := Option.none
            result := Except.error (SIEError.valueError (SIEBanxico.pctValueMsg (PyVal.str s))) }
      ∧ SIEBanxico.get_timeseries_range st (PyVal.str d1) (PyVal.str d2) (PyVal.str s) tr
        = { state := st, request := Option.none
            result := Except.error (SIEError.valueError (SIEBanxico.pctValueMsg (PyVal.str s))) })
  ∧ (SIEBanxico.get_lastdata st v tr
        = { state := st, request := Option.none
            result := Except.error (SIEError.typeError "\"pct_change\" must be None or a string.") }
      ∧ SIEBanxico.get_timeseries st v tr
        = { state := st, request := Option.none
            result := Except.error (SIEError.typeError "\"pct_change\" must be None or a string.") }
      ∧ SIEBanxico.get_timeseries_range st (PyVal.str d1) (PyVal.str d2) v tr
        = { state := st, request := Option.none
            result := Except.error (SIEError.typeError "\"pct_change\" must be None or a string.") }) := by
  have hok := SIEBanxico.set_pct_change_ok st p hp
  have hbadS := SIEBanxico.set_pct_change_valueError st s hs
  have hbadT := SIEBanxico.set_pct_change_typeError st v hv
  refine ⟨⟨?_, ?_, ?_, ?_, ?_, ?_⟩, ⟨?_, ?_, ?_⟩, ⟨?_, ?_, ?_⟩⟩
  · simp only [SIEBanxico.get_lastdata, hok]
    split <;> rfl
  · simp only [SIEBanxico.get_lastdata, hok]
    split <;> rfl
  · simp only [SIEBanxico.get_timeseries, hok]
    split <;> rfl
  · simp only [SIEBanxico.get_timeseries, hok]
    split <;> rfl
  · simp only [SIEBanxico.get_timeseries_range, hok]
    rw [if_neg (by simp [PyVal.isStr])]
    split <;> rfl
  · simp only [SIEBanxico.get_timeseries_range, hok]
    rw [if_neg (by simp [PyVal.isStr])]
    split <;> rfl
  · simp only [SIEBanxico.get_lastdata, hbadS]
  · simp only [SIEBanxico.get_timeseries, hbadS]
  · simp only [SIEBanxico.get_timeseries_range, hbadS]
  · simp only [SIEBanxico.get_lastdata, hbadT]
  · simp only [SIEBanxico.get_timeseries, hbadT]
  · simp only [SIEBanxico.get_timeseries_range, hbadT]

/-- Witness for C3: a valid value is stored, a bad string raises the
`ValueError`, a non-string raises the `TypeError`. -/
theorem C3_witness :
    (SIEBanxico.get_lastdata stEx (PyVal.str "PorcAnual") transport200).state.params.incremento
        = some (PyVal.str "PorcAnual")
  ∧ SIEBanxico.get_timeseries stEx (PyVal.str "bogus") transport200
      = { state := stEx, request := Option.none
          result := Except.error (SIEError.valueError (SIEBanxico.pctValueMsg (PyVal.str "bogus"))) }
  ∧ SIEBanxico.get_timeseries_range stEx (PyVal.str "2020-01-01") (PyVal.str "2020-12-31")
        (PyVal.int 7) transport200
      = { state := stEx, request := Option.none
          result := Except.error (SIEError.typeError "\"pct_change\" must be None or a string.") } := by
  obtain ⟨h1, h2, h3⟩ := C3_pct_change_validation stEx (PyVal.str "PorcAnual") (PyVal.int 7)
      "bogus" "2020-01-01" "2020-12-31" transport200 (by decide) (by decide) ⟨rfl, rfl⟩
  exact ⟨h1.1, h2.2.1, h3.2.2⟩

/-- C4: counterexample — the code tests `status_code != 200`, not "not a
2xx success status": a 201 response (a 2xx success) still makes
`get_metadata` raise the request error, refuting the claim as stated. -/
theorem C4_counterexample :
    (200 ≤ 201 ∧ 201 < 300)
  ∧ (SIEBanxico.get_metadata stEx (fun _ => { status_code := 201, json := PyVal.none })).result
      = Except.error (SIEError.requestError (SIEBanxico.requestMsg 201)) :=
  ⟨by decide, rfl⟩

/-- C4 (amended): each fetch method raises the request error, whose message
ends with the decimal status code, exactly when the response status differs
from 200 (so also on non-200 2xx statuses), and on a 200 response returns
the parsed JSON body unchanged. -/
theorem C4_status_handling (st : SIEBanxico) (p : PyVal) (d1 d2 : String)
    (tr : HttpRequest → HttpResponse) (code : Nat)
    (hp : SIEBanxico.pctMember p = true) :
    ((SIEBanxico.get_metadata st tr).result
        = (let resp := tr { url := st.url ++ st.series, headers := st.headers
                            params := { st.params with incremento := some PyVal.none } }
           if resp.status_code ≠ 200 then
             Except.error (SIEError.requestError (SIEBanxico.requestMsg resp.status_code))
           else Except.ok resp.json))
  ∧ ((SIEBanxico.get_lastdata st p tr).result
        = (let resp := tr { url := st.url ++ st.series ++ "/datos/oportuno", headers := st.headers
                            params := { st.params with incremento := some p } }
           if resp.status_code ≠ 200 then
             Except.error (SIEError.requestError (SIEBanxico.requestMsg resp.status_code))
           else Except.ok resp.json))
  ∧ ((SIEBanxico.get_timeseries st p tr).result
        = (let resp := tr { url := st.url ++ st.series ++ "/datos", headers := st.headers
                            params := { st.params with incremento := some p } }
           if resp.status_code ≠ 200 then
             Except.error (SIEError.requestError (SIEBanxico.requestMsg resp.status_code))
           else Except.ok resp.json))
  ∧ ((SIEBanxico.get_timeseries_range st (PyVal.str d1) (PyVal.str d2) p tr).result
        = (let resp := tr { url := st.url ++ st.series ++ "/datos/" ++ d1 ++ "/" ++ d2
                            headers := st.headers
                            params := { st.params with incremento := some p } }
           if resp.status_code ≠ 200 then
             Except.error (SIEError.requestError (SIEBanxico.requestRangeMsg resp.status_code))
           else Except.ok resp.json))
  ∧ (∃ pre, SIEBanxico.requestMsg code = pre ++ Nat.repr code)
  ∧ (∃ pre, SIEBanxico.requestRangeMsg code = pre ++ Nat.repr code) := by
  have hok0 := SIEBanxico.set_pct_change_ok st PyVal.none rfl
  have hok := SIEBanxico.set_pct_change_ok st p hp
  refine ⟨?_, ?_, ?_, ?_,
    ⟨"Something go wrong with the request. Review the token or series id.\nStatus code: ", rfl⟩,
    ⟨"Something go wrong with the request. Review the token, series id or date format.\nStatus code: ", rfl⟩⟩
  · simp only [SIEBanxico.get_metadata, hok0]
    split <;> rename_i h <;> simp [h]
  · simp only [SIEBanxico.get_lastdata, hok]
    split <;> rename_i h <;> simp [h]
  · simp only [SIEBanxico.get_timeseries, hok]
    split <;> rename_i h <;> simp [h]
  · simp only [SIEBanxico.get_timeseries_range, hok]
    rw [if_neg (by simp [PyVal.isStr])]
    simp only [PyVal.pyStr]
    split <;> rename_i h <;> simp [h]

/-- Witness for the amended C4: a 404 raises the request error whose
message ends in `404`; a 200 returns the body unchanged. -/
theorem C4_witness :
    (SIEBanxico.get_metadata stEx (fun _ => { status_code := 404, json := PyVal.none })).result
        = Except.error (SIEError.requestError (SIEBanxico.requestMsg 404))
  ∧ (SIEBanxico.get_metadata stEx transport200).result = Except.ok PyVal.none
  ∧ SIEBanxico.requestMsg 404
      = "Something go wrong with the request. Review the token or series id.\nStatus code: 404" := by
  have h404 := C4_status_handling stEx PyVal.none "2020-01-01" "2020-12-31"
      (fun _ => { status_code := 404, json := PyVal.none }) 404 rfl
  have h200 := C4_status_handling stEx PyVal.none "2020-01-01" "2020-12-31" transport200 404 rfl
  exact ⟨h404.1, h200.1, rfl⟩

/-- C7: counterexample — a non-string language (here the integer 5), which
is "any other language value", makes construction fail with a TYPE error,
not the value error the claim announces for every non-`en`/`es` value. -/
theorem C7_counterexample :
    SIEBanxico.init (PyVal.str "tok") (PyVal.list [PyVal.str "SF1"]) (PyVal.int 5)
      = Except.error (SIEError.typeError "\"language\" must be a string.")
  ∧ SIEError.isValueError (SIEError.typeError "\"language\" must be a string.") = false :=
  ⟨rfl, rfl⟩

/-- C7 (amended): construction accepts exactly `"en"` and `"es"`, storing
the language into params key `locale`; any other STRING fails with the
value error (e.g. `"fr"`), while a non-string language fails with a type
error instead. -/
theorem C7_language_validation (tok ser lang : String) (v : PyVal)
    (hv : v.isStr = false) (hl : lang ≠ "en" ∧ lang ≠ "es") :
    SIEBanxico.init (PyVal.str tok) (PyVal.str ser) (PyVal.str "en")
        = Except.ok { token := tok, series := ser, url := SIEBanxico.baseUrl
                      headers := [("Bmx-Token", tok)]
                      params := { locale := some (PyVal.str "en"), incremento := Option.none } }
  ∧ SIEBanxico.init (PyVal.str tok) (PyVal.str ser) (PyVal.str "es")
        = Except.ok { token := tok, series := ser, url := SIEBanxico.baseUrl
                      headers := [("Bmx-Token", tok)]
                      params := { locale := some (PyVal.str "es"), incremento := Option.none } }
  ∧ SIEBanxico.init (PyVal.str tok) (PyVal.str ser) (PyVal.str lang)
        = Except.error (SIEError.valueError
            ("\"" ++ lang ++ "\" is not defined.\nTry \"en\" for english or \"es\" for spanish."))
  ∧ SIEBanxico.init (PyVal.str tok) (PyVal.str ser) v
        = Except.error (SIEError.typeError "\"language\" must be a string.") := by
  refine ⟨rfl, rfl, ?_, ?_⟩
  · simp [SIEBanxico.init, SIEBanxico.token_value, SIEBanxico.series_value,
      SIEBanxico.language_value, hl.1, hl.2]
  · cases v with
    | str t => simp [PyVal.isStr] at hv
    | none => rfl
    | int n => rfl
    | list l => rfl

/-- Witness for the amended C7: `language="fr"` gives the value error,
`language=5` the type error. -/
theorem C7_witness :
    SIEBanxico.init (PyVal.str "tok") (PyVal.str "SF1") (PyVal.str "fr")
        = Except.error (SIEError.valueError
            ("\"" ++ "fr" ++ "\" is not defined.\nTry \"en\" for english or \"es\" for spanish."))
  ∧ SIEBanxico.init (PyVal.str "tok") (PyVal.str "SF1") (PyVal.int 5)
        = Except.error (SIEError.typeError "\"language\" must be a string.") := by
  obtain ⟨_, _, h3, h4⟩ := C7_language_validation "tok" "SF1" "fr" (PyVal.int 5) rfl
      ⟨by decide, by decide⟩
  exact ⟨h3, h4⟩

/-- C8: every fetch GET goes to the fixed base URL (which `__init__` always
installs) followed by the current selector and the method-specific suffix:
none for `get_metadata`, `/datos/oportuno` for `get_lastdata`, `/datos`
for `get_timeseries`, `/datos/{init_date}/{end_date}` for
`get_timeseries_range` — the latter raising a `TypeError` with no request
issued when either date argument is not a string. -/
theorem C8_request_urls (st : SIEBanxico) (tr : HttpRequest → HttpResponse)
    (d1 d2 : String) (v w : PyVal)
    (hu : st.url = SIEBanxico.baseUrl) (hw : v.isStr = false ∨ w.isStr = false) :
    (∀ t i l st0, SIEBanxico.init t i l = Except.ok st0 → st0.url = SIEBanxico.baseUrl)
  ∧ (SIEBanxico.get_metadata st tr).request
      = some { url := SIEBanxico.baseUrl ++ st.series, headers := st.headers
               params := { st.params with incremento := some PyVal.none } }
  ∧ (SIEBanxico.get_lastdata st PyVal.none tr).request
      = some { url := SIEBanxico.baseUrl ++ st.series ++ "/datos/oportuno", headers := st.headers
               params := { st.params with incremento := some PyVal.none } }
  ∧ (SIEBanxico.get_timeseries st PyVal.none tr).request
      = some { url := SIEBanxico.baseUrl ++ st.series ++ "/datos", headers := st.headers
               params := { st.params with incremento := some PyVal.none } }
  ∧ (SIEBanxico.get_timeseries_range st (PyVal.str d1) (PyVal.str d2) PyVal.none tr).request
      = some { url := SIEBanxico.baseUrl ++ st.series ++ "/datos/" ++ d1 ++ "/" ++ d2
               headers := st.headers
               params := { st.params with incremento := some PyVal.none } }
  ∧ (SIEBanxico.get_timeseries_range st v w PyVal.none tr).request = Option.none
  ∧ (SIEBanxico.get_timeseries_range st v w PyVal.none tr).result
      = Except.error (SIEError.typeError
          "\"init_date\" and \"end_date\" must be a string in the format yyyy-mm-dd") := by
  have hok0 := SIEBanxico.set_pct_change_ok st PyVal.none rfl
  refine ⟨?_, ?_, ?_, ?_, ?_, ?_, ?_⟩
  · intro t i l st0 h
    simp only [SIEBanxico.init] at h
    split at h
    · exact Except.noConfusion h
    · split at h
      · exact Except.noConfusion h
      · split at h
        · exact Except.noConfusion h
        · injection h with h2
          subst h2
          rfl
  · simp only [SIEBanxico.get_metadata, hok0]
    split <;> simp [hu]
  · simp only [SIEBanxico.get_lastdata, hok0]
    split <;> simp [hu]
  · simp only [SIEBanxico.get_timeseries, hok0]
    split <;> simp [hu]
  · simp only [SIEBanxico.get_timeseries_range, hok0]
    rw [if_neg (by simp [PyVal.isStr])]
    split <;> simp [hu, PyVal.pyStr]
  · simp only [SIEBanxico.get_timeseries_range, hok0]
    rcases hw with h | h <;> simp [h]
  · simp only [SIEBanxico.get_timeseries_range, hok0]
    rcases hw with h | h <;> simp [h]

/-- Witness for C8 at concrete inputs: the `/datos/oportuno` URL and the
no-request behaviour on a non-string date. -/
theorem C8_witness :
    (SIEBanxico.get_lastdata stEx PyVal.none transport200).request
      = some { url := SIEBanxico.baseUrl ++ "SF1" ++ "/datos/oportuno"
               headers := [("Bmx-Token", "tok")]
               params := { locale := some (PyVal.str "en"), incremento := some PyVal.none } }
  ∧ (SIEBanxico.get_timeseries_range stEx (PyVal.int 1) (PyVal.str "2020-12-31")
        PyVal.none transport200).request = Option.none := by
  have h := C8_request_urls stEx transport200 "2020-01-01" "2020-12-31"
      (PyVal.int 1) (PyVal.str "2020-12-31") rfl (Or.inl rfl)
  exact ⟨h.2.2.1, h.2.2.2.2.2.1⟩

/-- A `pct_change` value passing the membership test is `None` or one of
the three percentage-change literals. -/
theorem SIEBanxico.pctMember_cases (p : PyVal) (hp : SIEBanxico.pctMember p = true) :
    p = PyVal.none ∨ p = PyVal.str "PorcObsAnt" ∨ p = PyVal.str "PorcAnual"
      ∨ p = PyVal.str "PorcAcumAnual" := by
  cases p with
  | none => exact Or.inl rfl
  | str s =>
    simp [SIEBanxico.pctMember, SIEBanxico.pctStrings] at hp
    rcases hp with h | h | h
    · exact Or.inr (Or.inl (by rw [h]))
    · exact Or.inr (Or.inr (Or.inl (by rw [h])))
    · exact Or.inr (Or.inr (Or.inr (by rw [h])))
  | int n => simp [SIEBanxico.pctMember] at hp
  | list l => simp [SIEBanxico.pctMember] at hp

/-- A language accepted by `__set_language` is `"en"` or `"es"`. -/
theorem SIEBanxico.language_value_ok (l : PyVal) (s : String)
    (h : SIEBanxico.language_value l = Except.ok s) : s = "en" ∨ s = "es" := by
  cases l with
  | str t =>
    simp only [SIEBanxico.language_value] at h
    split at h
    · rename_i hc
      injection h with h2
      subst h2
      exact hc
    · exact Except.noConfusion h
  | none => exact Except.noConfusion h
  | int n => exact Except.noConfusion h
  | list m => exact Except.noConfusion h

/-- `set_token` never touches the params dict. -/
theorem SIEBanxico.set_token_params (st : SIEBanxico) (v : PyVal) :
    (SIEBanxico.set_token st v).1.params = st.params := by
  simp only [SIEBanxico.set_token]
  split <;> rfl

/-- `set_id_series` never touches the params dict. -/
theorem SIEBanxico.set_id_series_params (st : SIEBanxico) (v : PyVal) :
    (SIEBanxico.set_id_series st v).1.params = st.params := by
  simp only [SIEBanxico.set_id_series]
  split <;> rfl

/-- `append_id_series` never touches the params dict. -/
theorem SIEBanxico.append_id_series_params (st : SIEBanxico) (v : PyVal) :
    (SIEBanxico.append_id_series st v).1.params = st.params := by
  simp only [SIEBanxico.append_id_series]
  split
  · split <;> rfl
  · rfl

/-- `__set_pct_change` preserves the params invariant for every argument:
on rejection the state is untouched, on acceptance the written value is one
of the allowed four. -/
theorem SIEBanxico.set_pct_change_inv (st : SIEBanxico) (p : PyVal)
    (h : ParamsInv st.params) : ParamsInv (SIEBanxico.set_pct_change st p).1.params := by
  simp only [SIEBanxico.set_pct_change]
  split
  · exact h
  · split
    · exact h
    · rename_i h1 h2
      refine ⟨h.1, ?_⟩
      have hp : SIEBanxico.pctMember p = true := by simpa using h2
      rcases SIEBanxico.pctMember_cases p hp with h3 | h3 | h3 | h3 <;> rw [h3] <;> simp

/-- The post-call state of `get_metadata` is the state `__set_pct_change`
left behind. -/
theorem SIEBanxico.get_metadata_state (st : SIEBanxico) (tr : HttpRequest → HttpResponse) :
    (SIEBanxico.get_metadata st tr).state = (SIEBanxico.set_pct_change st PyVal.none).1 := by
  simp only [SIEBanxico.get_metadata]
  split
  · rename_i st1 e heq
    rw [heq]
  · rename_i st1 a heq
    rw [heq]
    split <;> rfl

/-- The post-call state of `get_lastdata` is the state `__set_pct_change`
left behind. -/
theorem SIEBanxico.get_lastdata_state (st : SIEBanxico) (p : PyVal)
    (tr : HttpRequest → HttpResponse) :
    (SIEBanxico.get_lastdata st p tr).state = (SIEBanxico.set_pct_change st p).1 := by
  simp only [SIEBanxico.get_lastdata]
  split
  · rename_i st1 e heq
    rw [heq]
  · rename_i st1 a heq
    rw [heq]
    split <;> rfl

/-- The post-call state of `get_timeseries` is the state `__set_pct_change`
left behind. -/
theorem SIEBanxico.get_timeseries_state (st : SIEBanxico) (p : PyVal)
    (tr : HttpRequest → HttpResponse) :
    (SIEBanxico.get_timeseries st p tr).state = (SIEBanxico.set_pct_change st p).1 := by
  simp only [SIEBanxico.get_timeseries]
  split
  · rename_i st1 e heq
    rw [heq]
  · rename_i st1 a heq
    rw [heq]
    split <;> rfl

/-- The post-call state of `get_timeseries_range` is the state
`__set_pct_change` left behind. -/
theorem SIEBanxico.get_timeseries_range_state (st : SIEBanxico) (d1 d2 p : PyVal)
    (tr : HttpRequest → HttpResponse) :
    (SIEBanxico.get_timeseries_range st d1 d2 p tr).state
      = (SIEBanxico.set_pct_change st p).1 := by
  simp only [SIEBanxico.get_timeseries_range]
  split
  · rename_i st1 e heq
    rw [heq]
  · rename_i st1 a heq
    rw [heq]
    split
    · rfl
    · split <;> rfl

/-- C9: every successful construction establishes the params invariant —
`locale` present and `en`/`es`, and `incremento`, when present, `None` or
one of the three percentage-change literals — and every public method
preserves it (whether or not the call returns normally, which covers the
claimed normal returns in particular). -/
theorem C9_params_invariant (t i l v p d1 d2 : PyVal) (st : SIEBanxico)
    (tr : HttpRequest → HttpResponse) (h : ParamsInv st.params) :
    (∀ st0, SIEBanxico.init t i l = Except.ok st0 → ParamsInv st0.params)
  ∧ ParamsInv (SIEBanxico.set_token st v).1.params
  ∧ ParamsInv (SIEBanxico.set_id_series st v).1.params
  ∧ ParamsInv (SIEBanxico.append_id_series st v).1.params
  ∧ ParamsInv (SIEBanxico.get_metadata st tr).state.params
  ∧ ParamsInv (SIEBanxico.get_lastdata st p tr).state.params
  ∧ ParamsInv (SIEBanxico.get_timeseries st p tr).state.params
  ∧ ParamsInv (SIEBanxico.get_timeseries_range st d1 d2 p tr).state.params := by
  refine ⟨?_, ?_, ?_, ?_, ?_, ?_, ?_, ?_⟩
  · intro st0 hinit
    simp only [SIEBanxico.init] at hinit
    split at hinit
    · exact Except.noConfusion hinit
    · split at hinit
      · exact Except.noConfusion hinit
      · split at hinit
        · exact Except.noConfusion hinit
        · rename_i lang hlang
          injection hinit with h2
          subst h2
          refine ⟨?_, Or.inl rfl⟩
          rcases SIEBanxico.language_value_ok _ _ hlang with h3 | h3 <;> rw [h3] <;> simp
  · rw [SIEBanxico.set_token_params]; exact h
  · rw [SIEBanxico.set_id_series_params]; exact h
  · rw [SIEBanxico.append_id_series_params]; exact h
  · rw [SIEBanxico.get_metadata_state]; exact SIEBanxico.set_pct_change_inv st PyVal.none h
  · rw [SIEBanxico.get_lastdata_state]; exact SIEBanxico.set_pct_change_inv st p h
  · rw [SIEBanxico.get_timeseries_state]; exact SIEBanxico.set_pct_change_inv st p h
  · rw [SIEBanxico.get_timeseries_range_state]; exact SIEBanxico.set_pct_change_inv st p h

/-- Witness for C9 at concrete inputs. -/
theorem C9_witness :
    ParamsInv (SIEBanxico.set_token stEx (PyVal.int 3)).1.params
  ∧ ParamsInv (SIEBanxico.get_lastdata stEx (PyVal.str "PorcObsAnt") transport200).state.params := by
  have h := C9_params_invariant PyVal.none PyVal.none PyVal.none (PyVal.int 3)
      (PyVal.str "PorcObsAnt") PyVal.none PyVal.none stEx transport200 ⟨Or.inl rfl, Or.inl rfl⟩
  exact ⟨h.2.1, h.2.2.2.2.2.1⟩
